import Mathlib

/-!
Shallow embedding of the authentication and session-lifecycle subsystem of
the Cred-It repository (`src/MainServer/creditapp/secure_auth_views.py`),
together with theorems settling the frozen claims about it.

Conventions of the embedding:
- Django/DRF request plumbing is out of scope; each view is a Lean function
  on the data the view body actually reads: the parsed request body (with
  `none` standing for a `json.loads` failure, i.e. a raised exception), the
  cookie jar, the account store, the revocation ledger (simplejwt's token
  blacklist), ambient settings, the current time, and the fresh token
  identifiers that the `RefreshToken()` constructor would draw.
- Signed tokens are modelled symbolically: a cookie value is either a
  claim set signed under some secret, or a malformed string.  Decoding
  succeeds exactly for tokens signed under the process secret.
- Python truthiness of strings (`if not x`) is modelled by testing the
  `Option String` against `none` and `""`.
-/

/-- Python `str.capitalize`: first character upper-cased, the rest
lower-cased (used on `profile.Status`). -/
def pyCapitalize (s : String) : String :=
  match s.data with
  | [] => ""
  | c :: rest => String.mk (c.toUpper :: rest.map Char.toLower)

/-- Python truthiness test `not x` for an optional string (`None` and the
empty string are falsy). -/
def pyFalsy (x : Option String) : Bool :=
  match x with
  | none => true
  | some s => s = ""

/-- A row of the external account store (`creditapp.models.CreditAccount`). -/
structure CreditAccount where
  AccountID : String
  AccountPass : String
  Status : String
deriving Repr, DecidableEq

/-- `CreditAccount.objects.get(AccountID=...)`: single-row lookup. -/
def storeGet (store : List CreditAccount) (aid : String) : Option CreditAccount :=
  store.find? (fun a => a.AccountID = aid)

/-- The payload of a simplejwt token: optional `username` and `role` custom
claims, the `token_type` claim, expiry, and the unique token identifier
`jti`. -/
structure ClaimSet where
  username : Option String
  role : Option String
  tokenType : String
  exp : Nat
  jti : Nat
deriving Repr, DecidableEq

/-- A cookie value holding a token: either a claim set signed under a
secret, or a malformed string. -/
inductive TokenValue where
  | signed (claims : ClaimSet) (secret : String)
  | malformed (s : String)
deriving Repr, DecidableEq

/-- Process-wide configuration read from `django.conf.settings`. -/
structure Settings where
  accessCookie : String
  refreshCookie : String
  secretKey : String
  accessLifetime : Nat
  refreshLifetime : Nat
deriving Repr

/-- A cookie mutation recorded on a response (`set_cookie` with the given
max-age, or `delete_cookie`). -/
inductive CookieOp where
  | set (key : String) (value : TokenValue) (maxAge : Nat)
  | del (key : String)
deriving Repr, DecidableEq

/-- The body of a `JsonResponse`, restricted to the shapes the auth views
produce. -/
inductive RespBody where
  | errorMsg (msg : String)
  | loginSuccess (message : String) (username : String) (role : String)
  | simpleSuccess
  | userInfo (username : String) (role : Option String)
deriving Repr, DecidableEq

/-- An HTTP response: status code, JSON body, and the cookie operations
applied to it, in order. -/
structure Response where
  status : Nat
  body : RespBody
  cookies : List CookieOp
deriving Repr, DecidableEq

/-- The refresh claim set built by `secure_login`: `RefreshToken()` with
`username`/`role` assigned (`token_type` is `"refresh"`, expiry from the
configured refresh lifetime, fresh `jti`). -/
def makeRefreshClaims (st : Settings) (now jti : Nat) (username role : String) : ClaimSet :=
  { username := some username, role := some role, tokenType := "refresh",
    exp := now + st.refreshLifetime, jti := jti }

/-- The access claim set built by `secure_login`: `refresh.access_token`
with `username`/`role` assigned. -/
def makeAccessClaims (st : Settings) (now jti : Nat) (username role : String) : ClaimSet :=
  { username := some username, role := some role, tokenType := "access",
    exp := now + st.accessLifetime, jti := jti }

/-- The parsed JSON body of a login request (`data.get` of each field;
`stayLoggedIn` defaults to `False`). -/
structure LoginBody where
  AccountID : Option String
  AccountPass : Option String
  stayLoggedIn : Bool
deriving Repr

/-- `secure_login` (`POST /auth/login`), lines 22-131 of
`secure_auth_views.py`.  `checkPassword` is Django's
`check_password(raw, stored_hash)`; `body = none` models a `json.loads`
failure, which the catch-all `except Exception` turns into a 500.
`jtiR`/`jtiA` are the fresh identifiers drawn for the refresh and access
tokens. -/
def secure_login (st : Settings) (store : List CreditAccount)
    (checkPassword : String → String → Bool)
    (now jtiR jtiA : Nat) (body : Option LoginBody) : Response :=
  match body with
  | none => { status := 500, body := .errorMsg "exception", cookies := [] }
  | some data =>
    if pyFalsy data.AccountID || pyFalsy data.AccountPass then
      { status := 400, body := .errorMsg "AccountID and Password are required", cookies := [] }
    else
      let accountId := data.AccountID.getD ""
      let accountPass := data.AccountPass.getD ""
      match storeGet store accountId with
      | none => { status := 404, body := .errorMsg "Account not found", cookies := [] }
      | some profile =>
        let role := pyCapitalize profile.Status
        let passwordValid :=
          if role = "Student" then checkPassword accountPass profile.AccountPass
          else accountPass = profile.AccountPass
        if !passwordValid then
          { status := 401, body := .errorMsg "Incorrect password", cookies := [] }
        else
          let refreshMaxAge := if data.stayLoggedIn then 30 * 24 * 60 * 60 else 24 * 60 * 60
          { status := 200,
            body := .loginSuccess "Login successful" accountId role,
            cookies :=
              [ .set st.accessCookie
                  (.signed (makeAccessClaims st now jtiA accountId role) st.secretKey) (15 * 60),
                .set st.refreshCookie
                  (.signed (makeRefreshClaims st now jtiR accountId role) st.secretKey)
                  refreshMaxAge ] }

/-- Outcome of `jwt.decode(token, SECRET_KEY, algorithms=["HS256"])`. -/
inductive JwtResult where
  | ok (payload : ClaimSet)
  | expired
  | invalid
deriving Repr, DecidableEq

/-- PyJWT decode of a cookie value: the signature is verified first
(`InvalidTokenError` on mismatch or malformed structure), then the `exp`
claim (`ExpiredSignatureError` once the expiry has passed). -/
def jwtDecode (secretKey : String) (now : Nat) (tv : TokenValue) : JwtResult :=
  match tv with
  | .malformed _ => .invalid
  | .signed c s =>
    if s = secretKey then
      if c.exp ≤ now then .expired else .ok c
    else .invalid

/-- `get_current_user` (`GET /auth/me`), lines 226-276.  The view has
ambient access to the account store and the revocation ledger (they are
passed here to mirror that), but its body reads neither: it only reads the
access-token cookie and decodes it with the process secret at the current
time. -/
def get_current_user (st : Settings) (_store : List CreditAccount) (_ledger : List Nat)
    (now : Nat) (cookies : String → Option TokenValue) : Response :=
  match cookies st.accessCookie with
  | none => { status := 401, body := .errorMsg "Not authenticated", cookies := [] }
  | some tv =>
    match jwtDecode st.secretKey now tv with
    | .expired => { status := 401, body := .errorMsg "Token expired", cookies := [] }
    | .invalid => { status := 401, body := .errorMsg "Invalid token", cookies := [] }
    | .ok payload =>
      match payload.username with
      | none => { status := 401, body := .errorMsg "Invalid token", cookies := [] }
      | some u =>
        if u = "" then { status := 401, body := .errorMsg "Invalid token", cookies := [] }
        else { status := 200, body := .userInfo u payload.role, cookies := [] }

/-- The `RefreshToken(token_string)` constructor of simplejwt: decodes and
verifies the token — signature under the process secret, unexpired `exp`,
`token_type = "refresh"`, and (with the token blacklist enabled) that the
`jti` is not in the revocation ledger.  `none` models a raised
`TokenError`. -/
def refreshTokenInit (st : Settings) (ledger : List Nat) (now : Nat)
    (tv : TokenValue) : Option ClaimSet :=
  match tv with
  | .malformed _ => none
  | .signed c s =>
    if s = st.secretKey ∧ now < c.exp ∧ c.tokenType = "refresh" ∧ c.jti ∉ ledger then
      some c
    else none

/-- `refresh.access_token` inside the refresh endpoint: a fresh access
claim set copying the custom claims of the refresh payload, with a new
`jti` and expiry. -/
def accessFromRefresh (st : Settings) (now jti : Nat) (c : ClaimSet) : ClaimSet :=
  { username := c.username, role := c.role, tokenType := "access",
    exp := now + st.accessLifetime, jti := jti }

/-- `refresh_token` (`POST /auth/refresh`), lines 134-190.  Returns the
response together with the revocation ledger after the call.  Note the
faithful translation of lines 154-158: `str(refresh)` re-encodes the very
payload that was decoded — same `jti`, same expiry — and nothing is ever
added to the ledger on this path. -/
def refresh_token_endpoint (st : Settings) (ledger : List Nat) (now jtiA : Nat)
    (cookies : String → Option TokenValue) : Response × List Nat :=
  match cookies st.refreshCookie with
  | none =>
    ({ status := 401, body := .errorMsg "Refresh token not found", cookies := [] }, ledger)
  | some tv =>
    match refreshTokenInit st ledger now tv with
    | none =>
      ({ status := 401, body := .errorMsg "Invalid or expired refresh token", cookies := [] },
        ledger)
    | some c =>
      let accessToken : TokenValue := .signed (accessFromRefresh st now jtiA c) st.secretKey
      let newRefreshToken : TokenValue := .signed c st.secretKey
      ({ status := 200, body := .simpleSuccess,
         cookies :=
           [ .set st.accessCookie accessToken (15 * 60),
             .set st.refreshCookie newRefreshToken (24 * 60 * 60) ] }, ledger)

/-- `secure_logout` (`POST /auth/logout`), lines 193-223.  Best-effort
revocation: if the refresh cookie is present and passes the
`RefreshToken` constructor, its `jti` is blacklisted; every failure in
that block is swallowed.  The response always reports success and deletes
both cookies. -/
def secure_logout (st : Settings) (ledger : List Nat) (now : Nat)
    (cookies : String → Option TokenValue) : Response × List Nat :=
  let ledger' :=
    match cookies st.refreshCookie with
    | none => ledger
    | some tv =>
      match refreshTokenInit st ledger now tv with
      | none => ledger
      | some c => c.jti :: ledger
  ({ status := 200, body := .simpleSuccess,
     cookies := [ .del st.accessCookie, .del st.refreshCookie ] }, ledger')

/-- The outcome of a `urllib.request.urlopen` call: a transport error
(`urllib.error.URLError`), or an HTTP response whose body either parses as
JSON of type `α` or fails to parse (`none`, i.e. `json.loads` raises). -/
inductive UrlFetch (α : Type) where
  | urlError (msg : String)
  | httpResp (code : Nat) (payload : Option α)

/-- The JSON body google's tokeninfo endpoint returns, reduced to the one
field the view reads. -/
structure GoogleData where
  email : Option String

/-- The third-party endpoints `google_login` may call. -/
structure GoogleEnv where
  tokeninfo : String → UrlFetch GoogleData

/-- The parsed JSON body of a google-login request. -/
structure GoogleBody where
  token : Option String

/-- Account lookup-or-create shared by both federation adapters: load by
email, or auto-provision a Student row whose password is the hash of a
random secret (`hashedRandomPass`).  Returns the resolved role and the
store after the call. -/
def findOrCreateAccount (store : List CreditAccount) (email : String)
    (hashedRandomPass : String) : String × List CreditAccount :=
  match storeGet store email with
  | some profile => (pyCapitalize profile.Status, store)
  | none =>
    ("Student",
      store ++ [{ AccountID := email, AccountPass := hashedRandomPass, Status := "Student" }])

/-- `google_login` (`POST /auth/google`), lines 279-374.  The outer `try:`
of this view has NO `except` clause, so any exception not handled by an
inner handler propagates out of the view; `Except.error` models such an
escaped exception.  The two escape points are a `json.loads` failure on
the request body (`body = none`) and a `json.loads` failure on the
provider's 200 response (`payload = none` — the inner handler only catches
`URLError`). -/
def google_login (st : Settings) (env : GoogleEnv) (store : List CreditAccount)
    (hashedRandomPass : String) (now jtiR jtiA : Nat)
    (body : Option GoogleBody) : Except String (Response × List CreditAccount) :=
  match body with
  | none => .error "JSONDecodeError"
  | some data =>
    if pyFalsy data.token then
      .ok ({ status := 400, body := .errorMsg "Google token required", cookies := [] }, store)
    else
      match env.tokeninfo (data.token.getD "") with
      | .urlError _ =>
        .ok ({ status := 401, body := .errorMsg "Failed to verify token", cookies := [] }, store)
      | .httpResp code payload =>
        if code ≠ 200 then
          .ok ({ status := 401, body := .errorMsg "Invalid Google token", cookies := [] }, store)
        else
          match payload with
          | none => .error "JSONDecodeError"
          | some googleData =>
            if pyFalsy googleData.email then
              .ok ({ status := 400, body := .errorMsg "Email not found in Google token",
                     cookies := [] }, store)
            else
              let email := googleData.email.getD ""
              let rs := findOrCreateAccount store email hashedRandomPass
              .ok ({ status := 200,
                     body := .loginSuccess "Google Login successful" email rs.1,
                     cookies :=
                       [ .set st.accessCookie
                           (.signed (makeAccessClaims st now jtiA email rs.1) st.secretKey)
                           (15 * 60),
                         .set st.refreshCookie
                           (.signed (makeRefreshClaims st now jtiR email rs.1) st.secretKey)
                           (30 * 24 * 60 * 60) ] }, rs.2)

/-- The JSON body of GitHub's token-exchange response, reduced to the
fields the view reads. -/
structure GithubTokenResp where
  access_token : Option String
  error_description : Option String

/-- A GitHub user profile, reduced to the one field the view reads. -/
structure GithubUser where
  email : Option String

/-- An entry of GitHub's `/user/emails` list. -/
structure GithubEmail where
  primary : Bool
  verified : Bool
  email : Option String

/-- The third-party endpoints `github_login` may call. -/
structure GithubEnv where
  exchange : String → UrlFetch GithubTokenResp
  userProfile : String → UrlFetch GithubUser
  userEmails : String → UrlFetch (List GithubEmail)

/-- The parsed JSON body of a github-login request. -/
structure GithubBody where
  code : Option String

/-- The email-list scan of `github_login` lines 448-451: the first entry
marked both primary and verified, if any, else the email stays `None`. -/
def pickPrimaryVerified (emails : List GithubEmail) : Option String :=
  match emails.find? (fun e => e.primary && e.verified) with
  | none => none
  | some e => e.email

/-- `github_login` (`POST /auth/github`), lines 376-508.  The outer `try:`
here DOES have a catch-all `except Exception` returning a 500, so every
exception not handled by an inner handler becomes a 500 response: a
request-body parse failure, a parse failure of any provider response, and
a transport error on the profile or email fetches (only the token-exchange
call sits inside a `URLError` handler). -/
def github_login (st : Settings) (env : GithubEnv) (store : List CreditAccount)
    (hashedRandomPass : String) (now jtiR jtiA : Nat)
    (body : Option GithubBody) : Response × List CreditAccount :=
  let err500 : Response := { status := 500, body := .errorMsg "exception", cookies := [] }
  match body with
  | none => (err500, store)
  | some data =>
    if pyFalsy data.code then
      ({ status := 400, body := .errorMsg "GitHub code required", cookies := [] }, store)
    else
      match env.exchange (data.code.getD "") with
      | .urlError _ =>
        ({ status := 401, body := .errorMsg "GitHub token exchange failed", cookies := [] },
          store)
      | .httpResp _ tokenPayload =>
        match tokenPayload with
        | none => (err500, store)
        | some tokenData =>
          if pyFalsy tokenData.access_token then
            ({ status := 401, body := .errorMsg "Failed to get GitHub token", cookies := [] },
              store)
          else
            let accessTok := tokenData.access_token.getD ""
            match env.userProfile accessTok with
            | .urlError _ => (err500, store)
            | .httpResp _ userPayload =>
              match userPayload with
              | none => (err500, store)
              | some githubUser =>
                let emailStep :
                    Except Unit (Option String) :=
                  if pyFalsy githubUser.email then
                    match env.userEmails accessTok with
                    | .urlError _ => .error ()
                    | .httpResp _ emailsPayload =>
                      match emailsPayload with
                      | none => .error ()
                      | some emails => .ok (pickPrimaryVerified emails)
                  else .ok githubUser.email
                match emailStep with
                | .error _ => (err500, store)
                | .ok email? =>
                  if pyFalsy email? then
                    ({ status := 400,
                       body := .errorMsg "No verified email found for GitHub account",
                       cookies := [] }, store)
                  else
                    let email := email?.getD ""
                    let rs := findOrCreateAccount store email hashedRandomPass
                    ({ status := 200,
                       body := .loginSuccess "GitHub Login successful" email rs.1,
                       cookies :=
                         [ .set st.accessCookie
                             (.signed (makeAccessClaims st now jtiA email rs.1) st.secretKey)
                             (15 * 60),
                           .set st.refreshCookie
                             (.signed (makeRefreshClaims st now jtiR email rs.1) st.secretKey)
                             (30 * 24 * 60 * 60) ] }, rs.2)

/-- Whether a response's cookie operations set the given cookie key. -/
def setsKey (ops : List CookieOp) (k : String) : Bool :=
  ops.any fun op =>
    match op with
    | .set k' _ _ => k' = k
    | .del _ => false

/-- Whether a response's cookie operations delete the given cookie key. -/
def delsKey (ops : List CookieOp) (k : String) : Bool :=
  ops.any fun op =>
    match op with
    | .del k' => k' = k
    | .set _ _ _ => false

/-- The CookiePair invariant: the access and refresh cookies are set
together or not at all, and deleted together or not at all. -/
def cookiePairConsistent (st : Settings) (r : Response) : Prop :=
  setsKey r.cookies st.accessCookie = setsKey r.cookies st.refreshCookie ∧
  delsKey r.cookies st.accessCookie = delsKey r.cookies st.refreshCookie

/-- Concrete settings used by the closed evaluation theorems. -/
def demoSettings : Settings :=
  { accessCookie := "access_token", refreshCookie := "refresh_token",
    secretKey := "sec", accessLifetime := 900, refreshLifetime := 86400 }

/-- A concrete valid refresh token (signed with the process secret,
token type `refresh`, expiry far in the future, identifier 7). -/
def demoRefreshTok : TokenValue :=
  .signed { username := some "S001", role := some "Student", tokenType := "refresh",
            exp := 100000, jti := 7 } "sec"

/-- A cookie jar carrying only `demoRefreshTok` in the refresh cookie. -/
def demoRefreshJar : String → Option TokenValue :=
  fun k => if k = "refresh_token" then some demoRefreshTok else none

/-- C1: the claim says a refresh token accepted once must fail with 401 on
every later presentation.  The code never writes to the revocation ledger
on the refresh path, so presenting `demoRefreshTok` a second time (after a
first accepted call) is accepted again with 200, and the ledger after the
first call is still empty. -/
theorem refresh_reuse_accepted_bug :
    (refresh_token_endpoint demoSettings [] 10 101 demoRefreshJar).1.status = 200 ∧
    (refresh_token_endpoint demoSettings [] 10 101 demoRefreshJar).2 = [] ∧
    (refresh_token_endpoint demoSettings
        (refresh_token_endpoint demoSettings [] 10 101 demoRefreshJar).2
        20 102 demoRefreshJar).1.status = 200 := by
  refine ⟨rfl, rfl, rfl⟩

/-- C2: the claim says a successful refresh revokes the incoming token's
identifier and emits a refresh token with a different identifier.  In the
code the ledger is untouched and `str(refresh)` re-encodes the decoded
payload, so the emitted refresh cookie carries the very same claim set —
same `jti` 7 — as the input token (only the 86400-second max-age part of
the claim matches the code). -/
theorem refresh_no_rotation_bug :
    (refresh_token_endpoint demoSettings [] 10 101 demoRefreshJar).2 = [] ∧
    (refresh_token_endpoint demoSettings [] 10 101 demoRefreshJar).1.cookies =
      [ CookieOp.set "access_token"
          (.signed { username := some "S001", role := some "Student", tokenType := "access",
                     exp := 910, jti := 101 } "sec") 900,
        CookieOp.set "refresh_token" demoRefreshTok 86400 ] := by
  refine ⟨rfl, rfl⟩

/-- A google environment whose tokeninfo endpoint answers 200 with a body
that does not parse as JSON. -/
def demoGoogleEnv : GoogleEnv :=
  { tokeninfo := fun _ => .httpResp 200 none }

/-- C3: the claim says every error in an auth endpoint is recovered and
mapped to a status response.  `google_login`'s outer `try:` has no
`except` clause (a syntax error in the source as written), so a
`json.loads` failure on the request body, and equally one on the
provider's 200 response, escape the view instead of becoming a status
response. -/
theorem google_error_escapes_bug :
    google_login demoSettings demoGoogleEnv [] "hp" 0 1 2 none =
      .error "JSONDecodeError" ∧
    google_login demoSettings demoGoogleEnv [] "hp" 0 1 2
        (some { token := some "tok" }) =
      .error "JSONDecodeError" := by
  refine ⟨rfl, rfl⟩

/-- C4: the Credential Verifier selects its method by the account's role:
Student secrets go through the password-hash check, Faculty/Admin secrets
are compared by direct string equality, and login succeeds (HTTP 200)
exactly when the role-appropriate comparison matches. -/
theorem login_verification_by_role
    (st : Settings) (store : List CreditAccount) (cp : String → String → Bool)
    (now j1 j2 : Nat) (data : LoginBody) (profile : CreditAccount)
    (hid : pyFalsy data.AccountID = false) (hpw : pyFalsy data.AccountPass = false)
    (hfind : storeGet store (data.AccountID.getD "") = some profile) :
    (pyCapitalize profile.Status = "Student" →
      ((secure_login st store cp now j1 j2 (some data)).status = 200 ↔
        cp (data.AccountPass.getD "") profile.AccountPass = true)) ∧
    ((pyCapitalize profile.Status = "Faculty" ∨ pyCapitalize profile.Status = "Admin") →
      ((secure_login st store cp now j1 j2 (some data)).status = 200 ↔
        data.AccountPass.getD "" = profile.AccountPass)) := by
  constructor
  · intro hrole
    simp [secure_login, hid, hpw, hfind, hrole]
    cases h : cp (data.AccountPass.getD "") profile.AccountPass <;> simp [h]
  · intro hrole
    have hne : (pyCapitalize profile.Status = "Student") = False := by
      rcases hrole with h | h <;> simp [h]
    simp [secure_login, hid, hpw, hfind, hne]
    by_cases h : data.AccountPass.getD "" = profile.AccountPass <;> simp [h]

/-- Witness for C4: a Faculty account with plaintext-stored password, the
matching submitted secret, concrete hash checker that never matches. -/
theorem login_verification_by_role_witness :
    (secure_login demoSettings
        [{ AccountID := "F001", AccountPass := "plain", Status := "faculty" }]
        (fun _ _ => false) 0 1 2
        (some { AccountID := some "F001", AccountPass := some "plain",
                stayLoggedIn := false })).status = 200 := by
  have h := login_verification_by_role demoSettings
    [{ AccountID := "F001", AccountPass := "plain", Status := "faculty" }]
    (fun _ _ => false) 0 1 2
    { AccountID := some "F001", AccountPass := some "plain", stayLoggedIn := false }
    { AccountID := "F001", AccountPass := "plain", Status := "faculty" }
    (by decide) (by decide) (by decide)
  exact (h.2 (Or.inl (by decide))).mpr rfl

/-- A one-account store used by the failed-login theorems. -/
def demoStore : List CreditAccount :=
  [{ AccountID := "S001", AccountPass := "hashed", Status := "student" }]

/-- C5 counterexample: the claim says a nonexistent account and a wrong
password for an existing account surface the same outcome.  In the code
they do not: with the same wrong secret, the existing account `"S001"`
yields 401 `Incorrect password` while the unknown account `"NOPE"` yields
404 `Account not found` — distinct statuses and distinct messages, so the
response reveals which check failed. -/
theorem login_error_uniform_counterexample :
    (secure_login demoSettings demoStore (fun _ _ => false) 0 1 2
        (some { AccountID := some "S001", AccountPass := some "wrong",
                stayLoggedIn := false })).status = 401 ∧
    (secure_login demoSettings demoStore (fun _ _ => false) 0 1 2
        (some { AccountID := some "NOPE", AccountPass := some "wrong",
                stayLoggedIn := false })).status = 404 ∧
    (secure_login demoSettings demoStore (fun _ _ => false) 0 1 2
        (some { AccountID := some "S001", AccountPass := some "wrong",
                stayLoggedIn := false })) ≠
      (secure_login demoSettings demoStore (fun _ _ => false) 0 1 2
        (some { AccountID := some "NOPE", AccountPass := some "wrong",
                stayLoggedIn := false })) := by
  refine ⟨rfl, rfl, by decide⟩

/-- C5 amended: a failed login distinguishes the two causes — an unknown
identifier always yields 404 `Account not found`, and a role-appropriate
password mismatch on an existing account always yields 401
`Incorrect password`. -/
theorem login_error_distinguishes
    (st : Settings) (store : List CreditAccount) (cp : String → String → Bool)
    (now j1 j2 : Nat) (data : LoginBody)
    (hid : pyFalsy data.AccountID = false) (hpw : pyFalsy data.AccountPass = false) :
    (storeGet store (data.AccountID.getD "") = none →
      secure_login st store cp now j1 j2 (some data) =
        { status := 404, body := .errorMsg "Account not found", cookies := [] }) ∧
    (∀ profile, storeGet store (data.AccountID.getD "") = some profile →
      (if pyCapitalize profile.Status = "Student" then
          cp (data.AccountPass.getD "") profile.AccountPass
        else decide (data.AccountPass.getD "" = profile.AccountPass)) = false →
      secure_login st store cp now j1 j2 (some data) =
        { status := 401, body := .errorMsg "Incorrect password", cookies := [] }) := by
  constructor
  · intro hfind
    simp [secure_login, hid, hpw, hfind]
  · intro profile hfind hbad
    simp only [secure_login, hid, hpw, Bool.or_self, Bool.false_eq_true, if_false, hfind]
    split at hbad <;> simp_all

/-- Witness for C5's amended theorem: the unknown account `"NOPE"` gets
the 404 response. -/
theorem login_error_distinguishes_witness :
    secure_login demoSettings demoStore (fun _ _ => false) 0 1 2
        (some { AccountID := some "NOPE", AccountPass := some "wrong",
                stayLoggedIn := false }) =
      { status := 404, body := .errorMsg "Account not found", cookies := [] } := by
  exact (login_error_distinguishes demoSettings demoStore (fun _ _ => false) 0 1 2
    { AccountID := some "NOPE", AccountPass := some "wrong", stayLoggedIn := false }
    (by decide) (by decide)).1 (by decide)

/-- C6: `GET /auth/me` — no access cookie yields 401 `Not authenticated`;
a token signed with the process secret whose expiry has passed yields 401
`Token expired`; a token whose signature or structure is invalid yields
401 `Invalid token`; and the result never depends on the account store or
the revocation ledger, only on the cookie value, the secret and the
current time. -/
theorem current_user_error_mapping
    (st : Settings) (store store' : List CreditAccount) (ledger ledger' : List Nat)
    (now : Nat) (cookies : String → Option TokenValue) :
    (cookies st.accessCookie = none →
      get_current_user st store ledger now cookies =
        { status := 401, body := .errorMsg "Not authenticated", cookies := [] }) ∧
    (∀ c, cookies st.accessCookie = some (.signed c st.secretKey) → c.exp ≤ now →
      get_current_user st store ledger now cookies =
        { status := 401, body := .errorMsg "Token expired", cookies := [] }) ∧
    (∀ tv, cookies st.accessCookie = some tv → jwtDecode st.secretKey now tv = .invalid →
      get_current_user st store ledger now cookies =
        { status := 401, body := .errorMsg "Invalid token", cookies := [] }) ∧
    get_current_user st store ledger now cookies =
      get_current_user st store' ledger' now cookies := by
  refine ⟨?_, ?_, ?_, rfl⟩
  · intro h
    simp [get_current_user, h]
  · intro c hc hexp
    simp [get_current_user, hc, jwtDecode, hexp]
  · intro tv htv hdec
    simp [get_current_user, htv, hdec]

/-- Witness for C6: an empty cookie jar yields 401 `Not authenticated`. -/
theorem current_user_error_mapping_witness :
    get_current_user demoSettings [] [] 5 (fun _ => none) =
      { status := 401, body := .errorMsg "Not authenticated", cookies := [] } := by
  exact (current_user_error_mapping demoSettings [] [] [] [] 5 (fun _ => none)).1 rfl

/-- C7: logout always reports success (200, `{'success': True}`) and
always deletes both cookies, whatever the refresh cookie's state — and
the response is identical whatever the ledger or cookie jar holds, so
decode/revoke failures are never surfaced. -/
theorem logout_always_succeeds
    (st : Settings) (ledger ledger2 : List Nat) (now now2 : Nat)
    (cookies cookies2 : String → Option TokenValue) :
    (secure_logout st ledger now cookies).1.status = 200 ∧
    (secure_logout st ledger now cookies).1.body = .simpleSuccess ∧
    (secure_logout st ledger now cookies).1.cookies =
      [CookieOp.del st.accessCookie, CookieOp.del st.refreshCookie] ∧
    (secure_logout st ledger now cookies).1 = (secure_logout st ledger2 now2 cookies2).1 := by
  exact ⟨rfl, rfl, rfl, rfl⟩

/-- C8: every successful login sets the access cookie with max-age 900 and
the refresh cookie with max-age 86400 when `stayLoggedIn` is false and
2592000 when it is true. -/
theorem login_cookie_max_ages
    (st : Settings) (store : List CreditAccount) (cp : String → String → Bool)
    (now j1 j2 : Nat) (data : LoginBody)
    (h : (secure_login st store cp now j1 j2 (some data)).status = 200) :
    ∃ a r, (secure_login st store cp now j1 j2 (some data)).cookies =
      [ CookieOp.set st.accessCookie a 900,
        CookieOp.set st.refreshCookie r
          (if data.stayLoggedIn then 2592000 else 86400) ] := by
  by_cases h1 : (pyFalsy data.AccountID || pyFalsy data.AccountPass) = true
  · simp [secure_login, h1] at h
  · rw [Bool.not_eq_true] at h1
    cases hfind : storeGet store (data.AccountID.getD "") with
    | none => simp [secure_login, h1, hfind] at h
    | some profile =>
      cases hv : (if pyCapitalize profile.Status = "Student"
          then cp (data.AccountPass.getD "") profile.AccountPass
          else decide (data.AccountPass.getD "" = profile.AccountPass)) with
      | false => simp [secure_login, h1, hfind, hv] at h
      | true =>
        refine ⟨TokenValue.signed
            (makeAccessClaims st now j2 (data.AccountID.getD "")
              (pyCapitalize profile.Status)) st.secretKey,
          TokenValue.signed
            (makeRefreshClaims st now j1 (data.AccountID.getD "")
              (pyCapitalize profile.Status)) st.secretKey, ?_⟩
        cases hs : data.stayLoggedIn <;> simp [secure_login, h1, hfind, hv, hs]

/-- Witness for C8: the student account of `demoStore` logs in with a hash
checker that accepts, `stayLoggedIn = true`. -/
theorem login_cookie_max_ages_witness :
    ∃ a r, (secure_login demoSettings demoStore (fun _ _ => true) 0 1 2
        (some { AccountID := some "S001", AccountPass := some "pw",
                stayLoggedIn := true })).cookies =
      [ CookieOp.set demoSettings.accessCookie a 900,
        CookieOp.set demoSettings.refreshCookie r
          (if (true : Bool) then 2592000 else 86400) ] := by
  exact login_cookie_max_ages demoSettings demoStore (fun _ _ => true) 0 1 2
    { AccountID := some "S001", AccountPass := some "pw", stayLoggedIn := true }
    (by decide)

/-- C10: `get_current_user` accepts any token signed with the process
secret that is unexpired and carries a nonempty `username` claim,
regardless of its `token_type` (so a refresh token in the access cookie is
accepted exactly like an access token); a valid token with no `username`
claim yields 401 `Invalid token`. -/
theorem current_user_ignores_token_kind
    (st : Settings) (store : List CreditAccount) (ledger : List Nat)
    (now : Nat) (cookies : String → Option TokenValue) (c : ClaimSet)
    (hc : cookies st.accessCookie = some (.signed c st.secretKey))
    (hexp : now < c.exp) :
    (∀ u, c.username = some u → u ≠ "" →
      get_current_user st store ledger now cookies =
        { status := 200, body := .userInfo u c.role, cookies := [] }) ∧
    (c.username = none →
      get_current_user st store ledger now cookies =
        { status := 401, body := .errorMsg "Invalid token", cookies := [] }) ∧
    (∀ t, get_current_user st store ledger now
        (fun k => if k = st.accessCookie
          then some (.signed { c with tokenType := t } st.secretKey) else cookies k) =
      get_current_user st store ledger now cookies) := by
  have hnl : ¬ c.exp ≤ now := Nat.not_le.mpr hexp
  refine ⟨?_, ?_, ?_⟩
  · intro u hu hne
    simp [get_current_user, hc, jwtDecode, hnl, hu, hne]
  · intro hu
    simp [get_current_user, hc, jwtDecode, hnl, hu]
  · intro t
    cases hu : c.username with
    | none => simp [get_current_user, hc, jwtDecode, hnl, hu]
    | some u =>
      by_cases hne : u = "" <;>
        simp [get_current_user, hc, jwtDecode, hnl, hu, hne]

/-- Witness for C10: a refresh-typed token in the access cookie is
accepted with 200. -/
theorem current_user_ignores_token_kind_witness :
    get_current_user demoSettings [] [] 5
        (fun k => if k = "access_token"
          then some (.signed { username := some "S001", role := some "Student",
                               tokenType := "refresh", exp := 100, jti := 3 } "sec")
          else none) =
      { status := 200, body := .userInfo "S001" (some "Student"), cookies := [] } := by
  exact (current_user_ignores_token_kind demoSettings [] [] 5
    (fun k => if k = "access_token"
      then some (.signed { username := some "S001", role := some "Student",
                           tokenType := "refresh", exp := 100, jti := 3 } "sec")
      else none)
    { username := some "S001", role := some "Student",
      tokenType := "refresh", exp := 100, jti := 3 }
    (by decide) (by decide)).1 "S001" rfl (by decide)

/-- A response that touches no cookie satisfies the CookiePair invariant. -/
lemma consistent_of_nil (st : Settings) (r : Response) (h : r.cookies = []) :
    cookiePairConsistent st r := by
  simp [cookiePairConsistent, setsKey, delsKey, h]

/-- A response that sets the access and refresh cookies (in that order)
satisfies the CookiePair invariant. -/
lemma consistent_of_set_pair (st : Settings) (r : Response)
    (a b : TokenValue) (ma mb : Nat)
    (h : r.cookies = [CookieOp.set st.accessCookie a ma, CookieOp.set st.refreshCookie b mb]) :
    cookiePairConsistent st r := by
  simp [cookiePairConsistent, setsKey, delsKey, h]

/-- A response that deletes the access and refresh cookies satisfies the
CookiePair invariant. -/
lemma consistent_of_del_pair (st : Settings) (r : Response)
    (h : r.cookies = [CookieOp.del st.accessCookie, CookieOp.del st.refreshCookie]) :
    cookiePairConsistent st r := by
  simp [cookiePairConsistent, setsKey, delsKey, h]

/-- C9: every response of every auth endpoint sets both token cookies or
neither, and deletes both or neither. -/
theorem cookie_pair_invariant (st : Settings) :
    (∀ store cp now j1 j2 body,
      cookiePairConsistent st (secure_login st store cp now j1 j2 body)) ∧
    (∀ ledger now jA cookies,
      cookiePairConsistent st (refresh_token_endpoint st ledger now jA cookies).1) ∧
    (∀ ledger now cookies,
      cookiePairConsistent st (secure_logout st ledger now cookies).1) ∧
    (∀ store ledger now cookies,
      cookiePairConsistent st (get_current_user st store ledger now cookies)) ∧
    (∀ env store hp now jR jA body r store',
      google_login st env store hp now jR jA body = .ok (r, store') →
      cookiePairConsistent st r) ∧
    (∀ env store hp now jR jA body,
      cookiePairConsistent st (github_login st env store hp now jR jA body).1) := by
  refine ⟨?_, ?_, ?_, ?_, ?_, ?_⟩
  · intro store cp now j1 j2 body
    cases body with
    | none => exact consistent_of_nil st _ rfl
    | some data =>
      simp only [secure_login]
      repeat' first
        | exact consistent_of_nil st _ rfl
        | exact consistent_of_set_pair st _ _ _ _ _ rfl
        | split
  · intro ledger now jA cookies
    simp only [refresh_token_endpoint]
    repeat' first
      | exact consistent_of_nil st _ rfl
      | exact consistent_of_set_pair st _ _ _ _ _ rfl
      | split
  · intro ledger now cookies
    exact consistent_of_del_pair st _ rfl
  · intro store ledger now cookies
    simp only [get_current_user]
    repeat' first
      | exact consistent_of_nil st _ rfl
      | split
  · intro env store hp now jR jA body r store' h
    cases body with
    | none => simp [google_login] at h
    | some data =>
      simp only [google_login] at h
      repeat' split at h
      all_goals first
        | (rw [Except.ok.injEq, Prod.mk.injEq] at h
           rw [← h.1]
           first
             | exact consistent_of_nil st _ rfl
             | exact consistent_of_set_pair st _ _ _ _ _ rfl)
        | simp at h
  · intro env store hp now jR jA body
    cases body with
    | none => exact consistent_of_nil st _ rfl
    | some data =>
      simp only [github_login]
      repeat' first
        | exact consistent_of_nil st _ rfl
        | exact consistent_of_set_pair st _ _ _ _ _ rfl
        | split

/-- Witness for C9: the google branch at a successful concrete login. -/
theorem cookie_pair_invariant_witness :
    cookiePairConsistent demoSettings
      { status := 200,
        body := .loginSuccess "Google Login successful" "a@b.c" "Student",
        cookies :=
          [ CookieOp.set "access_token"
              (.signed { username := some "a@b.c", role := some "Student",
                         tokenType := "access", exp := 900, jti := 2 } "sec") 900,
            CookieOp.set "refresh_token"
              (.signed { username := some "a@b.c", role := some "Student",
                         tokenType := "refresh", exp := 86400, jti := 1 } "sec")
              2592000 ] } := by
  exact (cookie_pair_invariant demoSettings).2.2.2.2.1
    { tokeninfo := fun _ => .httpResp 200 (some { email := some "a@b.c" }) }
    [] "hp" 0 1 2 (some { token := some "tok" }) _
    [{ AccountID := "a@b.c", AccountPass := "hp", Status := "Student" }] rfl
